import Mathlib

/-!
Shallow embedding of the `cleverence-edge-js-sdk` connection core:
the `WebSocketManager` transport (src/core/websocket.ts), the
`EventEmitter` notification primitive (src/core/events.ts) and the
`CleverenceEdge` protocol facade (src/core/client.ts).

The runtime is single-threaded and event-driven, so each TypeScript
method or I/O callback becomes a pure Lean function from the manager's
state to a new state paired with the list of observable effects it
produced (events emitted, promises settled, frames written, sockets
created or closed), in program order.
-/

/-- ConnectionState from src/types: the transport's state machine values. -/
inductive ConnectionState
  | disconnected
  | connecting
  | connected
  | reconnecting
deriving DecidableEq, Repr

/-- The browser WebSocket readyState values. -/
inductive ReadyState
  | CONNECTING
  | OPEN
  | CLOSING
  | CLOSED
deriving DecidableEq, Repr

/-- One physical browser WebSocket object: an identity (so that distinct
`new WebSocket(url)` constructions are distinguishable) and its readyState. -/
structure Socket where
  sid : Nat
  readyState : ReadyState
deriving DecidableEq, Repr

/-- The four query kinds accepted by `WebSocketManager.request`. -/
inductive Query
  | status
  | capabilities
  | config
  | rfid_tags
deriving DecidableEq, Repr

/-- Options object of `start_rfid_inventory`; opaque to the core. -/
structure RfidInventoryOptions where
  session : Nat := 0
deriving DecidableEq, Repr

/-- ClientMessage: the client-to-server frame kinds. -/
inductive ClientMessage
  | trigger_scan
  | set_symbologies (symbologies : List String)
  | start_rfid_inventory (options : Option RfidInventoryOptions)
  | stop_rfid_inventory
  | query (id : String) (q : Query)
  | ping
deriving DecidableEq, Repr

/-- DeviceCapabilities snapshot cached by the facade (src/types). -/
structure DeviceCapabilities where
  vendor : String
  deviceModel : String
  hasBarcode : Bool
  hasRfid : Bool
deriving DecidableEq, Repr

/-- Hardware observation payloads carried inside `event` frames. -/
inductive HwEvent
  | scan (data : String) (symbology : String)
  | rfid (epc : String)
deriving DecidableEq, Repr

/-- ServerMessage: the server-to-client frame kinds. A `response` frame is
split by its `success` flag into `responseOk` and `responseErr`. -/
inductive ServerMessage
  | event (e : HwEvent)
  | capabilities (data : DeviceCapabilities)
  | responseOk (id : String) (result : String)
  | responseErr (id : String) (error : String)
  | errorMsg (message : String)
  | pong
deriving DecidableEq, Repr

/-- WSManagerOptions with the DEFAULT_WS_OPTIONS defaults. -/
structure WSOptions where
  reconnect : Bool := true
  reconnectDelay : Nat := 1000
  maxReconnectDelay : Nat := 30000
  pingInterval : Nat := 30000
deriving DecidableEq, Repr

/-- Observable effects of one synchronous execution step of the manager:
emitter events, promise settlements, socket operations and frame writes. -/
inductive WSEffect
  | statechange (st : ConnectionState)
  | openEvt
  | closeEvt
  | errorEvt (msg : String)
  | messageEvt (m : ServerMessage)
  | resolveConnect
  | rejectConnect (msg : String)
  | resolveRequest (id : String) (result : String)
  | rejectRequest (id : String) (msg : String)
  | createSocket (sid : Nat)
  | closeSocket (sid : Nat)
  | sendFrame (m : ClientMessage)
deriving DecidableEq, Repr

/-- State of one `WebSocketManager` instance. `pending` lists the keys of
the pendingRequests map in insertion order; `reqTimers` lists the ids whose
per-request timeout timer is still armed; `awaitingOpen` records whether the
once-listeners (onOpen/onError) installed by an in-flight `connect()` call
are still attached; `nextSid` is the identity the next constructed socket
will receive. -/
structure WSState where
  ws : Option Socket
  connState : ConnectionState
  reconnectAttempts : Nat
  reconnectTimer : Option Nat
  pingTimer : Bool
  pending : List String
  reqTimers : List String
  intentionalClose : Bool
  awaitingOpen : Bool
  opts : WSOptions
  nextSid : Nat
deriving DecidableEq, Repr

/-- Initial state of a freshly constructed manager. -/
def initWS (opts : WSOptions) : WSState :=
  { ws := none
  , connState := .disconnected
  , reconnectAttempts := 0
  , reconnectTimer := none
  , pingTimer := false
  , pending := []
  , reqTimers := []
  , intentionalClose := false
  , awaitingOpen := false
  , opts := opts
  , nextSid := 0 }

/-- setState: store the state and emit `statechange`, but only when the
value actually changes (idempotent publication). -/
def setState (st : ConnectionState) (s : WSState) : WSState × List WSEffect :=
  if s.connState ≠ st then ({ s with connState := st }, [.statechange st]) else (s, [])

/-- send: throws "WebSocket is not connected" unless a socket exists and its
readyState is OPEN; otherwise serializes and writes the frame. -/
def send (s : WSState) (m : ClientMessage) : Except String WSEffect :=
  match s.ws with
  | none => .error "WebSocket is not connected"
  | some sock =>
      if sock.readyState = .OPEN then .ok (.sendFrame m)
      else .error "WebSocket is not connected"

/-- The exponential-backoff delay computed inside scheduleReconnect. -/
def backoffDelay (opts : WSOptions) (attempts : Nat) : Nat :=
  min (opts.reconnectDelay * 2 ^ attempts) opts.maxReconnectDelay

/-- scheduleReconnect: no-op when a timer is already pending; otherwise set
state to `reconnecting` and arm one timer with the backoff delay computed
from the current (pre-increment) reconnectAttempts counter. -/
def scheduleReconnect (s : WSState) : WSState × List WSEffect :=
  if s.reconnectTimer.isSome then (s, [])
  else
    let p := setState .reconnecting s
    ({ p.1 with reconnectTimer := some (backoffDelay s.opts s.reconnectAttempts) }, p.2)

/-- cleanup: stop the ping timer, clear a pending reconnect timer, reject
every pending request with "WebSocket disconnected" (clearing its timeout
timer), empty the table, and close the socket if it is OPEN or CONNECTING. -/
def cleanup (s : WSState) : WSState × List WSEffect :=
  let s1 := { s with pingTimer := false, reconnectTimer := none }
  let rejectEffs := s1.pending.map (fun id => WSEffect.rejectRequest id "WebSocket disconnected")
  let s2 := { s1 with
      pending := []
    , reqTimers := s1.reqTimers.filter (fun x => !s1.pending.contains x) }
  match s2.ws with
  | none => (s2, rejectEffs)
  | some sock =>
      let s3 := { s2 with ws := none }
      if sock.readyState = .OPEN ∨ sock.readyState = .CONNECTING then
        (s3, rejectEffs ++ [WSEffect.closeSocket sock.sid])
      else
        (s3, rejectEffs)

/-- connect: resolve immediately when already `connected` or `connecting`;
otherwise clear the intentional-close flag, enter `connecting` and construct
a new WebSocket with its listeners attached (`awaitingOpen`). `ctorThrows`
models the constructor throwing synchronously, in which case the catch
block sets `disconnected` and rejects. -/
def connect (s : WSState) (ctorThrows : Bool) : WSState × List WSEffect :=
  if s.connState = .connected ∨ s.connState = .connecting then
    (s, [.resolveConnect])
  else
    let s1 := { s with intentionalClose := false }
    let p := setState .connecting s1
    if ctorThrows then
      let q := setState .disconnected p.1
      (q.1, p.2 ++ q.2 ++ [.rejectConnect "WebSocket constructor threw"])
    else
      ({ p.1 with
          ws := some { sid := p.1.nextSid, readyState := .CONNECTING }
        , awaitingOpen := true
        , nextSid := p.1.nextSid + 1 },
       p.2 ++ [.createSocket p.1.nextSid])

/-- disconnect: mark the close intentional, run cleanup, set `disconnected`
and emit a `close` notification unconditionally. -/
def disconnect (s : WSState) : WSState × List WSEffect :=
  let s1 := { s with intentionalClose := true }
  let p := cleanup s1
  let q := setState .disconnected p.1
  (q.1, p.2 ++ q.2 ++ [.closeEvt])

/-- request: register a pending entry under a fresh correlation id (the id
generated by `generateId` is supplied by the caller here), arm its timeout
timer, then try to send the query frame; if send throws, clear the timer,
delete the entry and reject with the send error. -/
def request (s : WSState) (id : String) (q : Query) : WSState × List WSEffect :=
  let s1 := { s with pending := s.pending ++ [id], reqTimers := s.reqTimers ++ [id] }
  match send s1 (.query id q) with
  | .ok eff => (s1, [eff])
  | .error e =>
      ({ s1 with
          reqTimers := s1.reqTimers.filter (fun x => x ≠ id)
        , pending := s1.pending.filter (fun x => x ≠ id) },
       [.rejectRequest id e])

/-- handleMessage: `none` models a JSON parse failure (logged and dropped).
A `response` frame whose id matches a pending entry settles that entry and
returns; a `pong` is consumed silently; every other frame — including a
response with no matching pending entry — reaches `emit('message', m)`. -/
def handleMessage (s : WSState) (raw : Option ServerMessage) : WSState × List WSEffect :=
  match raw with
  | none => (s, [])
  | some m =>
      match m with
      | .responseOk id result =>
          if id ∈ s.pending then
            ({ s with
                pending := s.pending.filter (fun x => x ≠ id)
              , reqTimers := s.reqTimers.filter (fun x => x ≠ id) },
             [.resolveRequest id result])
          else (s, [.messageEvt m])
      | .responseErr id err =>
          if id ∈ s.pending then
            ({ s with
                pending := s.pending.filter (fun x => x ≠ id)
              , reqTimers := s.reqTimers.filter (fun x => x ≠ id) },
             [.rejectRequest id err])
          else (s, [.messageEvt m])
      | .pong => (s, [])
      | _ => (s, [.messageEvt m])

/-- handleClose: run cleanup; when the close was intentional just settle in
`disconnected`; otherwise emit `close` and either schedule a reconnect (when
the option is enabled) or settle in `disconnected`. -/
def handleClose (s : WSState) : WSState × List WSEffect :=
  let p := cleanup s
  if p.1.intentionalClose then
    let q := setState .disconnected p.1
    (q.1, p.2 ++ q.2)
  else
    if p.1.opts.reconnect then
      let q := scheduleReconnect p.1
      (q.1, p.2 ++ [.closeEvt] ++ q.2)
    else
      let q := setState .disconnected p.1
      (q.1, p.2 ++ [.closeEvt] ++ q.2)

/-- The socket's `open` event: the browser marks the socket OPEN, then the
once-listener onOpen (when still attached) detaches its onError partner,
resets the reconnect counter, enters `connected`, starts keepalive, emits
`open` and resolves the connect() promise. -/
def fireOpen (s : WSState) : WSState × List WSEffect :=
  match s.ws with
  | none => (s, [])
  | some sock =>
      let s1 := { s with ws := some { sock with readyState := .OPEN } }
      if s1.awaitingOpen then
        let s2 := { s1 with awaitingOpen := false, reconnectAttempts := 0 }
        let p := setState .connected s2
        ({ p.1 with pingTimer := true }, p.2 ++ [.openEvt, .resolveConnect])
      else (s1, [])

/-- The socket's `error` event: the once-listener onError (when still
attached) detaches onOpen and rejects the connect() promise; the persistent
handleError listener then emits an `error` notification. -/
def fireError (s : WSState) : WSState × List WSEffect :=
  match s.ws with
  | none => (s, [])
  | some _ =>
      if s.awaitingOpen then
        ({ s with awaitingOpen := false },
         [.rejectConnect "WebSocket connection failed", .errorEvt "WebSocket error"])
      else (s, [.errorEvt "WebSocket error"])

/-- The socket's `close` event: the browser marks the socket CLOSED before
the handleClose listener runs (the listener stays bound to the socket even
after the manager drops its reference). -/
def fireClose (s : WSState) : WSState × List WSEffect :=
  handleClose { s with ws := s.ws.map (fun sock => { sock with readyState := .CLOSED }) }

/-- The reconnect timer firing: drop the timer handle, increment the
reconnect counter, then call connect() (whose rejection is swallowed). -/
def fireReconnectTimer (s : WSState) (ctorThrows : Bool) : WSState × List WSEffect :=
  match s.reconnectTimer with
  | none => (s, [])
  | some _ =>
      connect { s with reconnectTimer := none, reconnectAttempts := s.reconnectAttempts + 1 }
        ctorThrows

/-- A request's timeout timer firing: the entry deletes itself from the
pending table and rejects with a timeout error. -/
def fireRequestTimeout (s : WSState) (id : String) (q : Query) : WSState × List WSEffect :=
  if id ∈ s.pending then
    ({ s with
        pending := s.pending.filter (fun x => x ≠ id)
      , reqTimers := s.reqTimers.filter (fun x => x ≠ id) },
     [.rejectRequest id ("Request timeout: " ++ reprStr q)])
  else (s, [])

/-!
EventEmitter (src/core/events.ts). Handlers for one event name live in a
JS `Set`, i.e. a duplicate-free list in insertion order. A `Handler` value
models one handler function object: `hid` is its object identity, `once`
records whether it is the wrapper installed by `once()`, and `throws`
whether invoking it throws. `emit` iterates the live set: a handler is
invoked only if it is still registered when its turn comes; the once
wrapper first unsubscribes itself, then calls the inner handler; a throw
is caught at the emit boundary and logged.
-/

/-- One registered handler function object of the EventEmitter. -/
structure Handler where
  hid : Nat
  once : Bool
  throws : Bool
deriving DecidableEq, Repr

/-- EventEmitter.on for one event name: Set.add — append unless present. -/
def emitterOn (h : Handler) (reg : List Handler) : List Handler :=
  if h ∈ reg then reg else reg ++ [h]

/-- EventEmitter.once: register the once wrapper around the handler. -/
def emitterOnce (h : Handler) (reg : List Handler) : List Handler :=
  emitterOn { h with once := true } reg

/-- EventEmitter.off for one event name: Set.delete of the handler object. -/
def emitterOff (h : Handler) (reg : List Handler) : List Handler :=
  reg.filter (fun g => g.hid ≠ h.hid)

/-- The traversal inside EventEmitter.emit: `tv` is the iteration front of
the Set snapshot, `reg` the live registered set. Returns the final
registered set, the invocation trace (handler identity paired with the
payload it received, in invocation order) and the log of caught handler
exceptions. -/
def emitVisit (payload : α) : List Handler → List Handler → List Handler × List (Nat × α) × List Nat
  | [], reg => (reg, [], [])
  | h :: rest, reg =>
      if h ∈ reg then
        let reg1 := if h.once then reg.filter (fun g => g.hid ≠ h.hid) else reg
        let r := emitVisit payload rest reg1
        (r.1, (h.hid, payload) :: r.2.1, (if h.throws then [h.hid] else []) ++ r.2.2)
      else
        emitVisit payload rest reg

/-- EventEmitter.emit for one event name. -/
def emitterEmit (payload : α) (reg : List Handler) : List Handler × List (Nat × α) × List Nat :=
  emitVisit payload reg reg

/-!
CleverenceEdge facade (src/core/client.ts). Its mutable state is the
transport's connection state (read through `this.ws`) and the cached
capability snapshot `_capabilities`.
-/

/-- Facade state: connection state as reported by the transport, plus the
cached DeviceCapabilities (null until first learned). -/
structure EdgeState where
  wsState : ConnectionState
  capabilities : Option DeviceCapabilities
deriving DecidableEq, Repr

/-- Events the facade republishes to application subscribers. -/
inductive FacadeEmit
  | connectEvt
  | disconnectEvt
  | reconnectingEvt
  | errorEvt (msg : String)
  | capabilitiesEvt (d : DeviceCapabilities)
  | scanEvt (data : String) (symbology : String)
  | rfidEvt (epc : String)
deriving DecidableEq, Repr

/-- handleEvent: republish a hardware event frame under its own kind. -/
def handleEvent (e : HwEvent) : FacadeEmit :=
  match e with
  | .scan data symbology => .scanEvt data symbology
  | .rfid epc => .rfidEvt epc

/-- handleServerMessage: the facade's switch over unsolicited frames.
`event`, `capabilities` and `error` have cases; `response` and `pong`
frames match no case and fall through untouched. -/
def handleServerMessage (s : EdgeState) (m : ServerMessage) : EdgeState × List FacadeEmit :=
  match m with
  | .event e => (s, [handleEvent e])
  | .capabilities d => ({ s with capabilities := some d }, [.capabilitiesEvt d])
  | .errorMsg msg => (s, [.errorEvt msg])
  | _ => (s, [])

/-- The callbacks wired in setupWebSocketHandlers, plus the asynchronous
completion of the proactive capabilities fetch issued by the open handler. -/
inductive FacadeEvent
  | wsOpen
  | capsFetchResult (r : Except String DeviceCapabilities)
  | wsClose
  | wsError (msg : String)
  | stateChange (st : ConnectionState)
  | serverMessage (m : ServerMessage)
deriving Repr

/-- Whether a facade callback is one of the two capability-cache update
paths: the successful proactive fetch, or an unsolicited capabilities push. -/
def capsUpdate : FacadeEvent → Bool
  | .capsFetchResult (.ok _) => true
  | .serverMessage (.capabilities _) => true
  | _ => false

/-- One facade reaction step: dispatch of a transport callback. The open
handler emits `connect` and issues the proactive getCapabilities query whose
settlement arrives later as `capsFetchResult`; a fetch failure is swallowed
by the empty catch. -/
def facadeStep (e : FacadeEvent) (s : EdgeState) : EdgeState × List FacadeEmit :=
  match e with
  | .wsOpen => ({ s with wsState := .connected }, [.connectEvt])
  | .capsFetchResult (.ok caps) => ({ s with capabilities := some caps }, [.capabilitiesEvt caps])
  | .capsFetchResult (.error _) => (s, [])
  | .wsClose => (s, [.disconnectEvt])
  | .wsError msg => (s, [.errorEvt msg])
  | .stateChange st =>
      ({ s with wsState := st }, if st = .reconnecting then [.reconnectingEvt] else [])
  | .serverMessage m => handleServerMessage s m

/-- CleverenceEdge.disconnect: delegates to ws.disconnect(), which moves the
transport to `disconnected`; no other facade field is touched. -/
def edgeDisconnect (s : EdgeState) : EdgeState :=
  { s with wsState := .disconnected }

/-- CleverenceEdge.connect: delegates to ws.connect(); touches no cache. -/
def edgeConnect (s : EdgeState) : EdgeState :=
  { s with wsState := if s.wsState = .connected then .connected else .connecting }

/-- The eight domain command/query methods of the facade, with their
arguments. -/
inductive EdgeMethod
  | triggerScan
  | setSymbologies (symbologies : List String)
  | startRfidInventory (options : Option RfidInventoryOptions)
  | stopRfidInventory
  | getStatus
  | getCapabilities
  | getConfig
  | getRfidTags
deriving DecidableEq, Repr

/-- ensureConnected: throw unless the transport state is `connected`. -/
def ensureConnected (s : EdgeState) : Except String Unit :=
  if s.wsState = .connected then .ok ()
  else .error "Not connected to Edge service. Call connect() first."

/-- Dispatch of one facade domain method: every method first runs
ensureConnected and only then builds the frame it hands to the transport
(`freshId` stands for the correlation id `request` would generate). -/
def invokeMethod (freshId : String) (m : EdgeMethod) (s : EdgeState) : Except String ClientMessage :=
  match ensureConnected s with
  | .error e => .error e
  | .ok _ =>
      match m with
      | .triggerScan => .ok .trigger_scan
      | .setSymbologies symbologies => .ok (.set_symbologies symbologies)
      | .startRfidInventory options => .ok (.start_rfid_inventory options)
      | .stopRfidInventory => .ok .stop_rfid_inventory
      | .getStatus => .ok (.query freshId .status)
      | .getCapabilities => .ok (.query freshId .capabilities)
      | .getConfig => .ok (.query freshId .config)
      | .getRfidTags => .ok (.query freshId .rfid_tags)

/-- The frames a method invocation actually wrote to the transport: a
throw from ensureConnected means nothing was sent or queued. -/
def framesSent (r : Except String ClientMessage) : List ClientMessage :=
  match r with
  | .error _ => []
  | .ok m => [m]

/-!
Concrete scenario states and retry-loop traces used by the claim theorems
below. `failCycle` replays one full failed retry: the reconnect timer
fires, the retry's socket errors before opening, and its close event
re-enters handleClose, which schedules the next backoff.
-/

/-- One failed reconnect attempt: timer fires, open fails, close handled. -/
def failCycle (s : WSState) : WSState :=
  (fireClose (fireError (fireReconnectTimer s false).1).1).1

/-- The successive scheduled backoff delays, starting from a state whose
reconnect timer is armed, across `n` consecutive failed retry attempts. -/
def delaysFrom (s : WSState) : Nat → List Nat
  | 0 => []
  | n + 1 =>
      match s.reconnectTimer with
      | some d => d :: delaysFrom (failCycle s) n
      | none => []

/-- A manager mid-connect (default options). -/
def wsConnecting : WSState := { initWS {} with connState := .connecting }

/-- A connected manager with an open socket and three outstanding requests. -/
def wsWithPending : WSState :=
  { initWS {} with
      connState := .connected
    , ws := some { sid := 0, readyState := .OPEN }
    , pingTimer := true
    , pending := ["p1", "p2", "p3"]
    , reqTimers := ["p1", "p2", "p3"] }

/-- A manager with no open socket and one outstanding request. -/
def wsNoSocket : WSState := { initWS {} with pending := ["x"], reqTimers := ["x"] }

/-- The state after an initial successful connect and open, then an
unintended close: the first backoff timer is armed. -/
def wsFirstRetry : WSState :=
  (fireClose (fireOpen (connect (initWS {}) false).1).1).1

/-- A sample capability snapshot. -/
def sampleCaps : DeviceCapabilities :=
  { vendor := "zebra", deviceModel := "MC3300", hasBarcode := true, hasRfid := false }

/-!
Helper lemmas about the transport state machine.
-/

/-- setState never touches the reconnect counter. -/
theorem setState_reconnectAttempts (st : ConnectionState) (s : WSState) :
    (setState st s).1.reconnectAttempts = s.reconnectAttempts := by
  unfold setState; split <;> rfl

/-- connect never touches the reconnect counter on any of its paths. -/
theorem connect_reconnectAttempts (s : WSState) (c : Bool) :
    (connect s c).1.reconnectAttempts = s.reconnectAttempts := by
  unfold connect
  split
  · rfl
  · split
    · rw [setState_reconnectAttempts, setState_reconnectAttempts]
    · rw [setState_reconnectAttempts]

/-- Claim C1: a transport already `connected` or `connecting` answers
connect() by resolving at once, leaving the state (hence the single
physical socket) untouched; in the concrete scenario of two connect()
calls issued while the first is still connecting followed by the open,
exactly one socket is constructed, both calls resolve, none rejects. -/
theorem C1_single_flight_connect :
    (∀ (s : WSState) (c : Bool),
        s.connState = .connected ∨ s.connState = .connecting →
        connect s c = (s, [WSEffect.resolveConnect])) ∧
    ((connect (initWS {}) false).2 ++ (connect (connect (initWS {}) false).1 false).2
        ++ (fireOpen (connect (connect (initWS {}) false).1 false).1).2
      = [WSEffect.statechange .connecting, WSEffect.createSocket 0,
         WSEffect.resolveConnect,
         WSEffect.statechange .connected, WSEffect.openEvt, WSEffect.resolveConnect]) := by
  constructor
  · intro s c h
    unfold connect
    rw [if_pos h]
  · decide

/-- Witness for C1 at a concrete connecting-state input. -/
theorem C1_single_flight_connect_witness :
    connect wsConnecting true = (wsConnecting, [WSEffect.resolveConnect]) :=
  C1_single_flight_connect.1 wsConnecting true (Or.inr rfl)

/-- Claim C2: the armed reconnect delay equals
min(reconnectDelay * 2 ^ attempts, maxReconnectDelay) with `attempts` the
counter before incrementing; the counter is incremented exactly when the
retry timer fires, immediately before the retry's connect(); it resets to
zero on every successful open; with the default base 1000 and ceiling
30000 the successive scheduled delays across consecutive failed retries
are 1000, 2000, 4000, 8000, 16000, 30000, 30000, 30000. -/
theorem C2_reconnect_backoff :
    (∀ s : WSState, s.reconnectTimer = none →
        (scheduleReconnect s).1.reconnectTimer
          = some (min (s.opts.reconnectDelay * 2 ^ s.reconnectAttempts)
                      s.opts.maxReconnectDelay)) ∧
    (∀ (s : WSState) (d : Nat) (c : Bool), s.reconnectTimer = some d →
        (fireReconnectTimer s c).1.reconnectAttempts = s.reconnectAttempts + 1) ∧
    (∀ (s : WSState) (sock : Socket), s.ws = some sock → s.awaitingOpen = true →
        (fireOpen s).1.reconnectAttempts = 0) ∧
    delaysFrom wsFirstRetry 8 = [1000, 2000, 4000, 8000, 16000, 30000, 30000, 30000] := by
  refine ⟨?_, ?_, ?_, by decide⟩
  · intro s h
    unfold scheduleReconnect
    rw [h]
    simp [backoffDelay, setState]
  · intro s d c h
    unfold fireReconnectTimer
    rw [h]
    rw [connect_reconnectAttempts]
  · intro s sock hws hawait
    unfold fireOpen
    rw [hws]
    simp [hawait, setState]
    split <;> rfl

/-- Witness for C2 at concrete inputs discharging each hypothesis. -/
theorem C2_reconnect_backoff_witness :
    (scheduleReconnect (initWS {})).1.reconnectTimer
        = some (min ((initWS {}).opts.reconnectDelay * 2 ^ (initWS {}).reconnectAttempts)
                    ((initWS {}).opts.maxReconnectDelay)) ∧
    (fireReconnectTimer wsFirstRetry false).1.reconnectAttempts
        = wsFirstRetry.reconnectAttempts + 1 ∧
    (fireOpen (connect (initWS {}) false).1).1.reconnectAttempts = 0 :=
  ⟨C2_reconnect_backoff.1 (initWS {}) rfl,
   C2_reconnect_backoff.2.1 wsFirstRetry 1000 false (by decide),
   C2_reconnect_backoff.2.2.1 (connect (initWS {}) false).1
     { sid := 0, readyState := .CONNECTING } (by decide) (by decide)⟩

/-- Claim C3 counterexample: with one pending request "a", an inbound
response frame carrying the unmatched id "b" is NOT silent with respect to
subscribers — handleMessage falls through its pending lookup and a
`message` event carrying the frame is emitted, refuting the claim's "no
message event is emitted for it" clause at this concrete input. -/
theorem C3_unmatched_response_counterexample :
    WSEffect.messageEvt (.responseOk "b" "r")
      ∈ (handleMessage { initWS {} with connState := .connected, pending := ["a"] }
           (some (.responseOk "b" "r"))).2 := by
  decide

/-- Claim C3 (amended): an inbound response frame whose correlation id
matches no pending entry settles no request and leaves the pending table
untouched, but the transport does republish it through its `message`
event; the facade's message handler has no case for response frames and
drops it, so no application-visible notification results. -/
theorem C3_unmatched_response_amended (s : WSState) (es : EdgeState)
    (id result err : String) (h : id ∉ s.pending) :
    handleMessage s (some (.responseOk id result))
        = (s, [WSEffect.messageEvt (.responseOk id result)]) ∧
    handleMessage s (some (.responseErr id err))
        = (s, [WSEffect.messageEvt (.responseErr id err)]) ∧
    handleServerMessage es (.responseOk id result) = (es, []) ∧
    handleServerMessage es (.responseErr id err) = (es, []) := by
  refine ⟨?_, ?_, rfl, rfl⟩ <;> simp [handleMessage, h]

/-- Witness for the amended C3 at a concrete unmatched id. -/
theorem C3_unmatched_response_amended_witness :
    handleMessage { initWS {} with connState := .connected, pending := ["a"] }
        (some (.responseOk "b" "r"))
      = ({ initWS {} with connState := .connected, pending := ["a"] },
         [WSEffect.messageEvt (.responseOk "b" "r")]) :=
  (C3_unmatched_response_amended
      { initWS {} with connState := .connected, pending := ["a"] }
      { wsState := .connected, capabilities := none } "b" "r" "e" (by decide)).1

/-- Claim C4 counterexample: with the default options (auto-reconnect
enabled), a caller-initiated connect whose socket errors and closes before
opening leaves the machine in `reconnecting` with a retry timer armed for
1000 ms — not in `disconnected` with no retry scheduled, as claimed. -/
theorem C4_open_failure_counterexample :
    (fireClose (fireError (connect (initWS {}) false).1).1).1.connState
        = ConnectionState.reconnecting ∧
    (fireClose (fireError (connect (initWS {}) false).1).1).1.reconnectTimer = some 1000 := by
  decide

/-- Claim C4 (amended): when a caller-initiated connect() fails to open
(error then close fire before open), the connect() promise is rejected;
with auto-reconnect disabled the machine moves from `connecting` to
`disconnected` and no retry is scheduled, but with auto-reconnect enabled
(the default) the shared close-handling path schedules a retry and the
machine enters `reconnecting` instead. -/
theorem C4_open_failure_amended (s : WSState) (h : s.connState = .disconnected) :
    WSEffect.rejectConnect "WebSocket connection failed"
        ∈ (fireError (connect s false).1).2 ∧
    (s.opts.reconnect = false →
        (fireClose (fireError (connect s false).1).1).1.connState = .disconnected ∧
        (fireClose (fireError (connect s false).1).1).1.reconnectTimer = none) ∧
    (s.opts.reconnect = true →
        (fireClose (fireError (connect s false).1).1).1.connState = .reconnecting ∧
        (fireClose (fireError (connect s false).1).1).1.reconnectTimer
            = some (backoffDelay s.opts s.reconnectAttempts)) := by
  obtain ⟨ws, cs, ra, rt, pt, pend, rqt, ic, ao, op, ns⟩ := s
  simp only at h
  subst h
  refine ⟨?_, ?_, ?_⟩
  · simp [connect, setState, fireError]
  · intro hrec
    simp only at hrec
    simp [connect, setState, fireError, fireClose, handleClose, cleanup, scheduleReconnect, hrec]
  · intro hrec
    simp only at hrec
    simp [connect, setState, fireError, fireClose, handleClose, cleanup, scheduleReconnect,
      backoffDelay, hrec]

/-- Witness for the amended C4 at the fresh default-options state. -/
theorem C4_open_failure_amended_witness :
    WSEffect.rejectConnect "WebSocket connection failed"
        ∈ (fireError (connect (initWS {}) false).1).2 ∧
    (fireClose (fireError (connect (initWS {}) false).1).1).1.connState
        = ConnectionState.reconnecting :=
  ⟨(C4_open_failure_amended (initWS {}) rfl).1,
   ((C4_open_failure_amended (initWS {}) rfl).2.2 rfl).1⟩

/-- Claim C5: disconnect() rejects every pending request with the
disconnection error, empties the pending table, cancels any reconnect
timer, stops keepalive, drops (closing if open) the physical socket,
settles in `disconnected` and publishes a close notification; and the
socket's subsequent close event after an intentional disconnect produces
no effects at all — in particular no reconnect is ever scheduled. -/
theorem C5_disconnect_teardown (s : WSState) :
    (disconnect s).1.pending = [] ∧
    (disconnect s).1.reconnectTimer = none ∧
    (disconnect s).1.pingTimer = false ∧
    (disconnect s).1.connState = .disconnected ∧
    (disconnect s).1.ws = none ∧
    (∀ id ∈ s.pending,
        WSEffect.rejectRequest id "WebSocket disconnected" ∈ (disconnect s).2) ∧
    WSEffect.closeEvt ∈ (disconnect s).2 ∧
    (∀ sock, s.ws = some sock → sock.readyState = .OPEN →
        WSEffect.closeSocket sock.sid ∈ (disconnect s).2) ∧
    (fireClose (disconnect s).1).2 = [] ∧
    (fireClose (disconnect s).1).1.reconnectTimer = none := by
  obtain ⟨ws, cs, ra, rt, pt, pend, rqt, ic, ao, op, ns⟩ := s
  rcases ws with _ | ⟨sid, rs⟩ <;> rcases cs <;>
    simp [disconnect, cleanup, setState, fireClose, handleClose, scheduleReconnect] <;>
    rcases rs <;>
    simp [disconnect, cleanup, setState, fireClose, handleClose, scheduleReconnect]

/-- Witness for C5 at a connected manager with three outstanding requests. -/
theorem C5_disconnect_teardown_witness :
    (disconnect wsWithPending).1.pending = [] ∧
    WSEffect.rejectRequest "p2" "WebSocket disconnected" ∈ (disconnect wsWithPending).2 ∧
    WSEffect.closeSocket 0 ∈ (disconnect wsWithPending).2 :=
  ⟨(C5_disconnect_teardown wsWithPending).1,
   (C5_disconnect_teardown wsWithPending).2.2.2.2.2.1 "p2" (by decide),
   (C5_disconnect_teardown wsWithPending).2.2.2.2.2.2.2.1
     { sid := 0, readyState := .OPEN } rfl rfl⟩

/-!
Helper lemmas about the EventEmitter traversal.
-/

/-- When no visited handler is a once wrapper, emit leaves the registered
set unchanged, invokes exactly the visited handlers in order with the
payload, and logs exactly the throwing ones. -/
theorem emitVisit_on_only {α : Type} (p : α) (tv : List Handler) :
    ∀ reg : List Handler, (∀ h ∈ tv, h.once = false) → (∀ h ∈ tv, h ∈ reg) →
    emitVisit p tv reg
      = (reg, tv.map (fun h => (h.hid, p)),
         (tv.filter (fun h => h.throws)).map Handler.hid) := by
  induction tv with
  | nil => intro reg _ _; simp [emitVisit]
  | cons h rest ih =>
      intro reg honce hmem
      have hin : h ∈ reg := hmem h (List.mem_cons_self h rest)
      have ho : h.once = false := honce h (List.mem_cons_self h rest)
      have hrec := ih reg (fun g hg => honce g (List.mem_cons_of_mem h hg))
                          (fun g hg => hmem g (List.mem_cons_of_mem h hg))
      simp [emitVisit, hin, ho, hrec]
      cases hth : h.throws <;> simp [List.filter_cons, hth]

/-- Every handler still registered after an emit traversal was registered
before it: emit only ever removes handlers. -/
theorem emitVisit_reg_subset {α : Type} (p : α) (tv : List Handler) :
    ∀ reg g, g ∈ (emitVisit p tv reg).1 → g ∈ reg := by
  induction tv with
  | nil => intro reg g hg; simpa [emitVisit] using hg
  | cons h rest ih =>
      intro reg g hg
      by_cases hin : h ∈ reg
      · by_cases ho : h.once
        · simp only [emitVisit, if_pos hin, ho, if_true] at hg
          exact List.mem_of_mem_filter (ih _ g hg)
        · simp only [emitVisit, if_pos hin, ho, if_false] at hg
          exact ih _ g hg
      · simp only [emitVisit, if_neg hin] at hg
        exact ih _ g hg

/-- After an emit traversal that visits a once wrapper, no handler with the
wrapper's identity remains registered (the wrapper unsubscribes itself
before invoking the inner handler, so this holds whether or not the inner
handler throws). -/
theorem emitVisit_avoid {α : Type} (p : α) (tv : List Handler) :
    ∀ reg h0, h0 ∈ tv → h0.once = true → h0 ∈ reg →
      (tv.map Handler.hid).Nodup →
      ∀ g ∈ (emitVisit p tv reg).1, g.hid ≠ h0.hid := by
  induction tv with
  | nil => intro reg h0 hmem; exact absurd hmem (List.not_mem_nil h0)
  | cons h rest ih =>
      intro reg h0 hmem honce hreg hnd g hg
      rw [List.map_cons, List.nodup_cons] at hnd
      obtain ⟨hnotin, hnd'⟩ := hnd
      by_cases hin : h ∈ reg
      · by_cases heq : h0 = h
        · subst heq
          simp only [emitVisit, if_pos hin, honce, if_true] at hg
          have hsub := emitVisit_reg_subset p rest _ g hg
          have := List.mem_filter.mp hsub
          simpa using this.2
        · have hmem' : h0 ∈ rest := by
            rcases List.mem_cons.mp hmem with h1 | h1
            · exact absurd h1 heq
            · exact h1
          have hhid : h.hid ≠ h0.hid := fun hc => hnotin (hc ▸ List.mem_map_of_mem Handler.hid hmem')
          by_cases ho : h.once
          · simp only [emitVisit, if_pos hin, ho, if_true] at hg
            refine ih _ h0 hmem' honce ?_ hnd' g hg
            exact List.mem_filter.mpr ⟨hreg, by simpa using Ne.symm hhid⟩
          · simp only [emitVisit, if_pos hin, ho, if_false] at hg
            exact ih _ h0 hmem' honce hreg hnd' g hg
      · have hmem' : h0 ∈ rest := by
          rcases List.mem_cons.mp hmem with h1 | h1
          · exact absurd (h1 ▸ hreg) hin
          · exact h1
        simp only [emitVisit, if_neg hin] at hg
        exact ih _ h0 hmem' honce hreg hnd' g hg

/-- Every entry of the invocation trace carries the identity of some
visited handler. -/
theorem emitVisit_trace_ids {α : Type} (p : α) (tv : List Handler) :
    ∀ reg x, x ∈ (emitVisit p tv reg).2.1 → ∃ h ∈ tv, h.hid = x.1 := by
  induction tv with
  | nil => intro reg x hx; simp [emitVisit] at hx
  | cons h rest ih =>
      intro reg x hx
      by_cases hin : h ∈ reg
      · simp only [emitVisit, if_pos hin] at hx
        rcases List.mem_cons.mp hx with h1 | h1
        · exact ⟨h, List.mem_cons_self h rest, by rw [h1]⟩
        · obtain ⟨g, hg, hgid⟩ := ih _ x h1
          exact ⟨g, List.mem_cons_of_mem h hg, hgid⟩
      · simp only [emitVisit, if_neg hin] at hx
        obtain ⟨g, hg, hgid⟩ := ih _ x hx
        exact ⟨g, List.mem_cons_of_mem h hg, hgid⟩

/-- Claim C6: for handlers registered plainly (no once wrappers), publish
invokes every registered handler exactly once, in registration order, each
with the same payload — independent of which handlers throw — leaves the
registration intact, and logs exactly the caught handler exceptions. -/
theorem C6_publish_all_handlers {α : Type} (p : α) (hs : List Handler)
    (h : ∀ g ∈ hs, g.once = false) :
    emitterEmit p hs
      = (hs, hs.map (fun g => (g.hid, p)),
         (hs.filter (fun g => g.throws)).map Handler.hid) :=
  emitVisit_on_only p hs hs h (fun _ hg => hg)

/-- Witness for C6: a throwing first handler does not stop the second. -/
theorem C6_publish_all_handlers_witness :
    emitterEmit "payload" [⟨1, false, true⟩, ⟨2, false, false⟩]
      = ([⟨1, false, true⟩, ⟨2, false, false⟩],
         [(1, "payload"), (2, "payload")], [1]) :=
  C6_publish_all_handlers "payload" [⟨1, false, true⟩, ⟨2, false, false⟩] (by decide)

/-- Claim C8: a handler registered through once is no longer registered
after the first publication of its event — whether or not it throws during
that first invocation — and a second publication does not invoke it. -/
theorem C8_once_auto_unsubscribe {α : Type} (p q : α) (hs : List Handler)
    (h0 : Handler) (hmem : h0 ∈ hs) (honce : h0.once = true)
    (hnd : (hs.map Handler.hid).Nodup) :
    h0 ∉ (emitterEmit p hs).1 ∧
    (∀ x ∈ (emitterEmit q (emitterEmit p hs).1).2.1, x.1 ≠ h0.hid) := by
  have havoid : ∀ g ∈ (emitterEmit p hs).1, g.hid ≠ h0.hid :=
    emitVisit_avoid p hs hs h0 hmem honce hmem hnd
  constructor
  · intro hc
    exact havoid h0 hc rfl
  · intro x hx
    obtain ⟨g, hg, hgid⟩ := emitVisit_trace_ids q (emitterEmit p hs).1 (emitterEmit p hs).1 x hx
    rw [← hgid]
    exact havoid g hg

/-- Witness for C8: a throwing once handler is gone after the first emit. -/
theorem C8_once_auto_unsubscribe_witness :
    (⟨5, true, true⟩ : Handler) ∉ (emitterEmit "a" [⟨5, true, true⟩, ⟨6, false, false⟩]).1 :=
  (C8_once_auto_unsubscribe "a" "b" [⟨5, true, true⟩, ⟨6, false, false⟩]
      ⟨5, true, true⟩ (by decide) rfl (by decide)).1

/-- Claim C7: every facade domain command/query method invoked while the
transport is not `connected` fails immediately with the not-connected
error thrown by ensureConnected; no frame is handed to the transport and
nothing is queued for later delivery. -/
theorem C7_fail_fast_when_disconnected (m : EdgeMethod) (s : EdgeState) (freshId : String)
    (h : s.wsState ≠ .connected) :
    invokeMethod freshId m s
        = .error "Not connected to Edge service. Call connect() first." ∧
    framesSent (invokeMethod freshId m s) = [] := by
  have he : ensureConnected s
      = .error "Not connected to Edge service. Call connect() first." := by
    unfold ensureConnected
    rw [if_neg h]
  constructor
  · unfold invokeMethod
    rw [he]
  · unfold framesSent invokeMethod
    rw [he]

/-- Witness for C7: triggerScan against a disconnected facade. -/
theorem C7_fail_fast_when_disconnected_witness :
    invokeMethod "id1" .triggerScan { wsState := .disconnected, capabilities := none }
        = .error "Not connected to Edge service. Call connect() first." ∧
    framesSent (invokeMethod "id1" .triggerScan
        { wsState := .disconnected, capabilities := none }) = [] :=
  C7_fail_fast_when_disconnected .triggerScan
    { wsState := .disconnected, capabilities := none } "id1" (by decide)

/-- Claim C9: when the send inside request() throws (no socket, or a
socket that is not OPEN), the returned promise rejects with that same send
error, the freshly registered pending entry is removed again — leaving the
pending table exactly as before the call — and the entry's expiry timer is
cancelled. -/
theorem C9_request_send_atomicity (s : WSState) (id : String) (q : Query)
    (hp : id ∉ s.pending) (ht : id ∉ s.reqTimers)
    (hnotopen : ∀ sock, s.ws = some sock → sock.readyState ≠ .OPEN) :
    request s id q = (s, [WSEffect.rejectRequest id "WebSocket is not connected"]) := by
  have hsend : send { s with pending := s.pending ++ [id], reqTimers := s.reqTimers ++ [id] }
        (.query id q) = .error "WebSocket is not connected" := by
    unfold send
    cases hws : s.ws with
    | none => simp [hws]
    | some sock => simp [hws, hnotopen sock hws]
  have hfilter : ∀ l : List String, id ∉ l → (l ++ [id]).filter (fun x => x ≠ id) = l := by
    intro l hl
    have h1 : l.filter (fun x => x ≠ id) = l :=
      List.filter_eq_self.mpr (fun x hx => by
        simp only [decide_eq_true_eq]
        rintro rfl
        exact hl hx)
    have h2 : ([id] : List String).filter (fun x => x ≠ id) = [] := by simp
    rw [List.filter_append, h1, h2, List.append_nil]
  simp only [request]
  rw [hsend]
  rw [hfilter s.pending hp, hfilter s.reqTimers ht]

/-- Witness for C9: a request issued with no socket at all. -/
theorem C9_request_send_atomicity_witness :
    request wsNoSocket "y" .status
      = (wsNoSocket, [WSEffect.rejectRequest "y" "WebSocket is not connected"]) :=
  C9_request_send_atomicity wsNoSocket "y" .status (by decide) (by decide)
    (fun sock h => nomatch h)

/-- Claim C10: neither disconnect nor connect touches the facade's cached
capabilities; among all facade reaction steps, only the successful
proactive capabilities fetch and an unsolicited capabilities push frame
update the cache — and those two do update it. -/
theorem C10_capability_cache_retention (s : EdgeState) (e : FacadeEvent)
    (h : capsUpdate e = false) :
    (edgeDisconnect s).capabilities = s.capabilities ∧
    (edgeConnect s).capabilities = s.capabilities ∧
    (facadeStep e s).1.capabilities = s.capabilities ∧
    (∀ d, (facadeStep (.capsFetchResult (.ok d)) s).1.capabilities = some d) ∧
    (∀ d, (facadeStep (.serverMessage (.capabilities d)) s).1.capabilities = some d) := by
  refine ⟨rfl, rfl, ?_, fun d => rfl, fun d => rfl⟩
  cases e with
  | wsOpen => rfl
  | capsFetchResult r =>
      cases r with
      | ok d => simp [capsUpdate] at h
      | error msg => rfl
  | wsClose => rfl
  | wsError msg => rfl
  | stateChange st => rfl
  | serverMessage m =>
      cases m with
      | event ev => cases ev <;> rfl
      | capabilities d => simp [capsUpdate] at h
      | responseOk i r => rfl
      | responseErr i r => rfl
      | errorMsg msg => rfl
      | pong => rfl

/-- Witness for C10: disconnecting a facade that knows its capabilities. -/
theorem C10_capability_cache_retention_witness :
    (edgeDisconnect { wsState := .connected, capabilities := some sampleCaps }).capabilities
        = some sampleCaps ∧
    (facadeStep .wsClose
        { wsState := .connected, capabilities := some sampleCaps }).1.capabilities
        = some sampleCaps :=
  ⟨(C10_capability_cache_retention
      { wsState := .connected, capabilities := some sampleCaps } .wsClose rfl).1,
   (C10_capability_cache_retention
      { wsState := .connected, capabilities := some sampleCaps } .wsClose rfl).2.2.1⟩
